import Mathlib

/-!
Shallow embedding of `src/main.rs` of stream-yolo: an RTSP → decode → YOLO
detection → crop-export pipeline. The parts embedded here are the ones the
spec's testable properties concern: the `new_sample` appsink callback
(frame counter, decimation gate, buffer validation, inference dispatch,
per-detection crop and export), the `connect_pad_added` dynamic link
handler, and the command-line arity check in `main`.

Modelling conventions:
- The `AtomicUsize` frame counter is a `Nat` threaded through the callback
  (delivery is strictly sequential per the streaming model, so the atomic
  is only ever updated by one thread at a time).
- A Rust `.expect(msg)` that fails is a process abort: the callback never
  returns. This is encoded as `panicMsg = some msg` in the step result,
  with `flow = none` (no flow value is ever returned to the framework).
- `f32` bounding-box coordinates from the inference engine are modelled as
  `Int`; the Rust `as u32` cast on an `f32` saturates (negatives to 0,
  overlarge to `u32::MAX`, which `satU32` mirrors on `Int`).
- The `f32` confidence is modelled by the integer number of hundredths
  that the `:.2` format prints, since the claims only concern the
  two-decimal rendering, not float rounding internals.
- External library behaviour that the callback's results depend on is
  embedded from the libraries' documented semantics: `RgbImage::from_raw`
  (image crate) returns `None` iff the buffer is smaller than
  `3 * width * height`; `DynamicImage::crop_imm` (image crate) clamps
  `x`,`y` to the image dimensions and then `width`,`height` to the
  remaining extent.
-/

namespace StreamYolo

/-- Bounding box as produced by the yolo-rs inference engine
(`BoundingBox { x1, x2, y1, y2 }`); `f32` coordinates modelled as `Int`. -/
structure BoundingBox where
  x1 : Int
  y1 : Int
  x2 : Int
  y2 : Int
deriving Repr, DecidableEq

/-- One detection returned by `inference`: label, confidence and box.
`confH` is the confidence in hundredths, as printed by the `:.2` format. -/
structure Entity where
  boundingBox : BoundingBox
  label : String
  confH : Nat
deriving Repr, DecidableEq

/-- A decoded raw frame as seen inside the callback: the declared
dimensions from `VideoInfo` and the mapped buffer bytes. -/
structure Frame where
  width : Nat
  height : Nat
  data : List Nat
deriving Repr, DecidableEq

/-- Environment of one callback invocation: the result of
`sink.pull_sample()`, the result the external inference engine would
return for this frame, and whether `File::create` / `write_to` would
succeed for the i-th detection of this frame. -/
structure SampleInput where
  pulled : Option Frame
  inferResult : Except String (List Entity)
  createOk : Nat → Bool
  writeOk : Nat → Bool

/-- The flow value the callback returns to GStreamer:
`Ok(FlowSuccess::Ok)` or `Err(FlowError::Error)`. -/
inductive FlowRet where
  | ok
  | error
deriving Repr, DecidableEq

/-- A crop rectangle in pixel coordinates (x, y, width, height). -/
structure Rect where
  x : Nat
  y : Nat
  w : Nat
  h : Nat
deriving Repr, DecidableEq

/-- One persisted artifact: the file name passed to `File::create` and the
crop rectangle of the image written into it. -/
structure ExportRec where
  name : String
  rect : Rect
deriving Repr, DecidableEq

/-- Instrumented result of one `new_sample` invocation.
`flow = none` together with `panicMsg = some m` means the invocation hit
`.expect(m)` and aborted the process instead of returning. `gated` is true
when the decimation branch `counter % 30 == 0` was taken;
`inferenceCalled` when `inference(&yolo_model, ...)` was invoked;
`attempted` lists the indices of detections whose export was begun;
`written` the artifacts actually persisted. -/
structure StepResult where
  counter : Nat
  flow : Option FlowRet
  gated : Bool
  inferenceCalled : Bool
  attempted : List Nat
  written : List ExportRec
  panicMsg : Option String
deriving Repr, DecidableEq

/-- Rust `as u32` on an (integral) `f32` value: saturating cast. -/
def satU32 (x : Int) : Nat :=
  (min x (2 ^ 32 - 1)).toNat

/-- The crop rectangle that
`dynamic_image.crop_imm(x1 as _, y1 as _, (x2 - x1) as u32, (y2 - y1) as u32)`
actually uses on a `w × h` frame: the image crate clamps `x`,`y` to the
dimensions and then the extent to what remains. -/
def cropRect (b : BoundingBox) (w h : Nat) : Rect :=
  let x := min (satU32 b.x1) w
  let y := min (satU32 b.y1) h
  let cw := min (satU32 (b.x2 - b.x1)) (w - x)
  let ch := min (satU32 (b.y2 - b.y1)) (h - y)
  ⟨x, y, cw, ch⟩

/-- Two-decimal rendering of a confidence given in hundredths, as the
`:.2` format prints it (e.g. 91 ↦ "0.91", 100 ↦ "1.00"). -/
def confFormat (h : Nat) : String :=
  toString (h / 100) ++ "." ++ (if h % 100 < 10 then "0" else "") ++ toString (h % 100)

/-- The file name `format!("frame-{}-{}-{:.2}.png", counter, label, confidence)`. -/
def fileName (seq : Nat) (label : String) (confH : Nat) : String :=
  "frame-" ++ toString seq ++ "-" ++ label ++ "-" ++ confFormat confH ++ ".png"

/-- The `for entity in yolo_output` export loop, starting at detection
index `i` on a `w × h` frame of sequence `seq`. For each entity the crop is
computed, then `File::create(...).expect("expect a valid file")` and
`write_to(...).expect("expect a valid image")` run; a failing `.expect`
aborts the process, so nothing after it is attempted. Returns the indices
attempted, the artifacts written, and the abort message if any. -/
def exportEntities (seq w h : Nat) (cOk wOk : Nat → Bool) :
    Nat → List Entity → List Nat × List ExportRec × Option String
  | _, [] => ([], [], none)
  | i, e :: rest =>
    let rec0 : ExportRec := ⟨fileName seq e.label e.confH, cropRect e.boundingBox w h⟩
    if cOk i then
      if wOk i then
        let t := exportEntities seq w h cOk wOk (i + 1) rest
        (i :: t.1, rec0 :: t.2.1, t.2.2)
      else ([i], [rec0], some "expect a valid image")
    else ([i], [], some "expect a valid file")

/-- The body of the callback after a successful `pull_sample`, with `c`
the value `fetch_add` returned (the counter before this frame). The
decimation check is the hard-coded `counter % 30 == 0`; on admission the
buffer is validated by `RgbImage::from_raw` (`None` iff
`data.length < 3 * width * height`), then inference runs, then the export
loop. -/
def newSampleFrame (c : Nat) (f : Frame) (inp : SampleInput) : StepResult :=
  if c % 30 == 0 then
    if 3 * f.width * f.height ≤ f.data.length then
      match inp.inferResult with
      | .error _ => ⟨c + 1, none, true, true, [], [], some "failed to run inference"⟩
      | .ok entities =>
        let t := exportEntities c f.width f.height inp.createOk inp.writeOk 0 entities
        ⟨c + 1, if t.2.2.isSome then none else some .ok, true, true, t.1, t.2.1, t.2.2⟩
    else ⟨c + 1, none, true, false, [], [], some "expect a valid image"⟩
  else ⟨c + 1, some .ok, false, false, [], [], none⟩

/-- One invocation of the `new_sample` appsink callback with counter `c`.
A failed `pull_sample` returns `Err(gst::FlowError::Error)` immediately:
the counter is untouched and nothing else runs. -/
def newSample (c : Nat) (inp : SampleInput) : StepResult :=
  match inp.pulled with
  | none => ⟨c, some .error, false, false, [], [], none⟩
  | some f => newSampleFrame c f inp

/-- Sequential delivery of a list of frames to the gate, starting from
counter `c`. A panicking invocation aborts the process, so later frames
are never delivered; the boolean records whether the run aborted. -/
def processFrames : Nat → List SampleInput → Nat × Bool
  | c, [] => (c, false)
  | c, inp :: rest =>
    let r := newSample c inp
    if r.panicMsg.isSome then (r.counter, true)
    else processFrames r.counter rest

/-- Result of the `src_pad.link(&sink_pad)` call, were it performed. -/
inductive LinkAttempt where
  | success
  | failure
deriving Repr, DecidableEq

/-- What the `connect_pad_added` handler does: nothing (sink pad already
linked), a successful link (info log), or a warning log on link failure.
The handler's `match` has no other arm — there is no fatal path. -/
inductive PadAddedAction where
  | noop
  | linkedOk
  | warnedFailure
deriving Repr, DecidableEq

/-- The `connect_pad_added` handler body: link only if the sink pad is not
already linked; a failed link is logged with `tracing::warn!` and nothing
else happens. -/
def padAdded (sinkLinked : Bool) (link : LinkAttempt) : PadAddedAction :=
  if sinkLinked then .noop
  else match link with
    | .success => .linkedOk
    | .failure => .warnedFailure

/-- How many new pad links an action performs. -/
def linksMade : PadAddedAction → Nat
  | .linkedOk => 1
  | _ => 0

/-- What `main` does with `argv` before any pipeline object exists:
usage message and `return Ok(())` (successful exit, no pipeline) unless
`args.len() == 2`; with an empty argv the usage `eprintln!` would index
`args[0]` out of bounds. -/
inductive MainAction where
  | usageExit (msg : String)
  | runPipeline (url : String)
  | indexPanic
deriving Repr, DecidableEq

/-- The arity check at the top of `main`:
`if args.len() != 2 { eprintln!("Usage: {} <RTSP URL>", args[0]); return Ok(()); }`. -/
def mainArgCheck (args : List String) : MainAction :=
  if args.length == 2 then .runPipeline (args.getD 1 "")
  else
    match args.head? with
    | some a0 => .usageExit ("Usage: " ++ a0 ++ " <RTSP URL>")
    | none => .indexPanic

/-- The spec's strict bounding-box invariant
`0 ≤ x1 < x2 ≤ width ∧ 0 ≤ y1 < y2 ≤ height`, stated of a crop rectangle
(so `x1 = r.x`, `x2 = r.x + r.w`, …); written from the spec's words to be
compared against what the code exports. -/
def specStrictBounds (r : Rect) (w h : Nat) : Bool :=
  decide (r.x < r.x + r.w ∧ r.x + r.w ≤ w ∧ r.y < r.y + r.h ∧ r.y + r.h ≤ h)

/-- A 1×1 frame with a well-formed 3-byte RGB buffer. -/
def benignFrame : Frame := ⟨1, 1, [0, 0, 0]⟩

/-- A fully well-behaved invocation: pull succeeds, buffer valid,
inference returns no detections, all file operations would succeed. -/
def benignInput : SampleInput := ⟨some benignFrame, .ok [], fun _ => true, fun _ => true⟩

/-- Three consecutive well-behaved deliveries. -/
def benignRun : List SampleInput := [benignInput, benignInput, benignInput]

/-- An admitted frame on which the external inference engine fails. -/
def inferFailInput : SampleInput :=
  ⟨some benignFrame, .error "engine failure", fun _ => true, fun _ => true⟩

/-- A 2×2 frame with a well-formed 12-byte RGB buffer. -/
def frame2 : Frame := ⟨2, 2, [0, 0, 0, 0, 0, 0, 0, 0, 0, 0, 0, 0]⟩

/-- A degenerate detection: `x1 = x2 = 1`, so the spec's strict invariant
`x1 < x2` fails, yet the code computes a zero-width crop and exports it. -/
def degenerateEntity : Entity := ⟨⟨1, 0, 1, 2⟩, "cat", 91⟩

/-- An admitted valid frame whose single detection has a degenerate box. -/
def degenerateInput : SampleInput :=
  ⟨some frame2, .ok [degenerateEntity], fun _ => true, fun _ => true⟩

/-- Two detections on one frame. -/
def twoEntities : List Entity :=
  [⟨⟨0, 0, 1, 1⟩, "cat", 91⟩, ⟨⟨0, 0, 1, 1⟩, "dog", 88⟩]

/-- An admitted valid frame with two detections where `File::create` fails
for the first detection (index 0) and would succeed for the second. -/
def exportFailInput : SampleInput :=
  ⟨some benignFrame, .ok twoEntities, fun i => i != 0, fun _ => true⟩

/-- An admitted frame declared 10×10 whose mapped buffer holds only
3 bytes, failing `RgbImage::from_raw` validation. -/
def shortBufferInput : SampleInput :=
  ⟨some (⟨10, 10, [0, 0, 0]⟩ : Frame), .ok [], fun _ => true, fun _ => true⟩

/-- An invocation where `sink.pull_sample()` fails. -/
def noPullInput : SampleInput := ⟨none, .ok [], fun _ => true, fun _ => true⟩

/-! ## Helper lemmas -/

/-- Once a sample is pulled, `fetch_add(1)` runs before anything else, so
the counter after the invocation is `c + 1` in every branch — whether the
frame was gated in, skipped, or the invocation later aborted. -/
theorem newSampleFrame_counter (c : Nat) (f : Frame) (inp : SampleInput) :
    (newSampleFrame c f inp).counter = c + 1 := by
  unfold newSampleFrame
  split
  · split
    · cases inp.inferResult <;> rfl
    · rfl
  · rfl

/-- A successful pull dispatches to the frame body. -/
theorem newSample_eq_frame (c : Nat) (inp : SampleInput) (f : Frame)
    (hp : inp.pulled = some f) : newSample c inp = newSampleFrame c f inp := by
  simp [newSample, hp]

/-- The gate branch taken is exactly the decimation test `counter % 30 == 0`. -/
theorem newSampleFrame_gated (c : Nat) (f : Frame) (inp : SampleInput) :
    (newSampleFrame c f inp).gated = (c % 30 == 0) := by
  unfold newSampleFrame
  split
  next h =>
    split
    · cases inp.inferResult <;> simp [h]
    · simp [h]
  next h => simp [h]

/-- With a valid buffer, `inference` is invoked exactly on gated frames. -/
theorem newSampleFrame_inferenceCalled (c : Nat) (f : Frame) (inp : SampleInput)
    (hv : 3 * f.width * f.height ≤ f.data.length) :
    (newSampleFrame c f inp).inferenceCalled = (c % 30 == 0) := by
  unfold newSampleFrame
  split
  next h => cases inp.inferResult <;> simp [h]
  next h => simp [h]

/-- Counter increment per successfully pulled frame, via `newSample`. -/
theorem newSample_counter (c : Nat) (inp : SampleInput) (f : Frame)
    (hp : inp.pulled = some f) : (newSample c inp).counter = c + 1 := by
  rw [newSample_eq_frame c inp f hp, newSampleFrame_counter]

/-- A run over frames that all pull successfully and that never aborts
advances the counter by exactly the number of frames. -/
theorem processFrames_counter (l : List SampleInput) :
    ∀ c, (∀ inp ∈ l, inp.pulled.isSome) → (processFrames c l).2 = false →
      (processFrames c l).1 = c + l.length := by
  induction l with
  | nil => intro c _ _; simp [processFrames]
  | cons inp rest ih =>
    intro c hall hnab
    obtain ⟨f, hf⟩ := Option.isSome_iff_exists.mp (hall inp (List.mem_cons_self inp rest))
    have hrest : ∀ i ∈ rest, i.pulled.isSome :=
      fun i hi => hall i (List.mem_cons_of_mem inp hi)
    simp only [processFrames] at hnab ⊢
    by_cases hpan : (newSample c inp).panicMsg.isSome
    · simp [hpan] at hnab
    · rw [Bool.not_eq_true] at hpan
      simp only [hpan, Bool.false_eq_true, if_false] at hnab ⊢
      rw [ih (newSample c inp).counter hrest hnab, newSample_counter c inp f hf,
        List.length_cons]
      omega

/-- The crop rectangle that `crop_imm` uses never exceeds the frame:
the clamp keeps `x + w ≤ width` and `y + h ≤ height`. -/
theorem cropRect_within (b : BoundingBox) (w h : Nat) :
    (cropRect b w h).x + (cropRect b w h).w ≤ w ∧
      (cropRect b w h).y + (cropRect b w h).h ≤ h := by
  unfold cropRect
  dsimp only
  omega

/-- Every artifact the export loop writes has its crop rectangle within
the frame bounds. -/
theorem exportEntities_written_within (seq w h : Nat) (cOk wOk : Nat → Bool) :
    ∀ (es : List Entity) (i : Nat) (r : ExportRec),
      r ∈ (exportEntities seq w h cOk wOk i es).2.1 →
      r.rect.x + r.rect.w ≤ w ∧ r.rect.y + r.rect.h ≤ h := by
  intro es
  induction es with
  | nil => intro i r hr; simp [exportEntities] at hr
  | cons e rest ih =>
    intro i r hr
    simp only [exportEntities] at hr
    by_cases hc : cOk i
    · by_cases hw : wOk i
      · simp only [hc, hw, if_true, List.mem_cons] at hr
        rcases hr with hr | hr
        · subst hr; exact cropRect_within e.boundingBox w h
        · exact ih (i + 1) r hr
      · simp only [hc, hw, if_true, Bool.false_eq_true, if_false,
          List.mem_singleton] at hr
        subst hr; exact cropRect_within e.boundingBox w h
    · simp only [hc, Bool.false_eq_true, if_false, List.not_mem_nil] at hr

/-- When every file operation succeeds, the export loop writes exactly one
artifact per detection, in order, with the computed name and crop, and
does not abort. -/
theorem exportEntities_all_ok (seq w h : Nat) (cOk wOk : Nat → Bool)
    (hc : ∀ i, cOk i = true) (hw : ∀ i, wOk i = true) :
    ∀ (es : List Entity) (i : Nat),
      (exportEntities seq w h cOk wOk i es).2.1 =
        es.map (fun e => ⟨fileName seq e.label e.confH, cropRect e.boundingBox w h⟩) ∧
      (exportEntities seq w h cOk wOk i es).2.2 = none := by
  intro es
  induction es with
  | nil => intro i; simp [exportEntities]
  | cons e rest ih =>
    intro i
    simp [exportEntities, hc i, hw i, (ih (i + 1)).1, (ih (i + 1)).2]

/-! ## Claim theorems -/

/-- C1: for every frame delivered to the sample gate with sequence number
`c ≥ 0` (the counter value `fetch_add` returns), the decimation branch is
taken iff `c % 30 = 0`, and — whenever the buffer passes validation — the
inference engine is invoked iff `c % 30 = 0`. -/
theorem c1_decimation_gate (c : Nat) (inp : SampleInput) (f : Frame)
    (hp : inp.pulled = some f) :
    ((newSample c inp).gated = true ↔ c % 30 = 0) ∧
      (3 * f.width * f.height ≤ f.data.length →
        ((newSample c inp).inferenceCalled = true ↔ c % 30 = 0)) := by
  have he := newSample_eq_frame c inp f hp
  refine ⟨?_, fun hv => ?_⟩
  · rw [he, newSampleFrame_gated]
    simp
  · rw [he, newSampleFrame_inferenceCalled c f inp hv]
    simp

/-- C1 witness: at counter 30 on a concrete well-formed frame. -/
theorem c1_decimation_gate_witness :
    ((newSample 30 benignInput).gated = true ↔ 30 % 30 = 0) ∧
      (3 * benignFrame.width * benignFrame.height ≤ benignFrame.data.length →
        ((newSample 30 benignInput).inferenceCalled = true ↔ 30 % 30 = 0)) :=
  c1_decimation_gate 30 benignInput benignFrame rfl

/-- C2: after a run of `M` delivered frames in which every pull succeeds
and no invocation aborts, the frame counter equals `M` — it advances
exactly once per received frame, admitted or not. -/
theorem c2_frame_counter (l : List SampleInput)
    (h1 : ∀ inp ∈ l, inp.pulled.isSome)
    (h2 : (processFrames 0 l).2 = false) :
    (processFrames 0 l).1 = l.length := by
  have := processFrames_counter l 0 h1 h2
  omega

/-- C2 witness: three frames (the first admitted, the other two not). -/
theorem c2_frame_counter_witness :
    (∀ inp ∈ benignRun, inp.pulled.isSome) ∧
      (processFrames 0 benignRun).2 = false ∧
      (processFrames 0 benignRun).1 = 3 :=
  ⟨by decide, by decide, c2_frame_counter benignRun (by decide) (by decide)⟩

/-- C3: on an admitted frame whose inference call fails, the callback hits
`.expect("failed to run inference")` and aborts the whole process: no flow
value is returned, no frame is skipped-and-continued. -/
theorem c3_inference_failure_aborts :
    newSample 0 inferFailInput =
      ⟨1, none, true, true, [], [], some "failed to run inference"⟩ := by
  decide

/-- C4 counterexample: the admitted frame `frame2` (2×2, valid buffer)
carries one detection with a degenerate box `x1 = x2 = 1`. The code
neither rejects nor repairs it: it exports a zero-width crop, so the
spec's strict invariant `x1 < x2` fails on an exported detection. -/
theorem c4_strict_bounds_counterexample :
    (newSample 0 degenerateInput).written =
        [⟨"frame-0-cat-0.91.png", ⟨1, 0, 0, 2⟩⟩] ∧
      ((newSample 0 degenerateInput).written.all
        fun r => specStrictBounds r.rect 2 2) = false := by
  decide

/-- C4 amended: every artifact exported from a pulled frame has its crop
rectangle clamped to the frame bounds — `x + w ≤ width` and
`y + h ≤ height` hold (non-strictly; degenerate boxes give empty crops
that are still exported, not rejected). -/
theorem c4_clamped_bounds (c : Nat) (inp : SampleInput) (f : Frame)
    (hp : inp.pulled = some f) :
    ∀ r ∈ (newSample c inp).written,
      r.rect.x + r.rect.w ≤ f.width ∧ r.rect.y + r.rect.h ≤ f.height := by
  intro r hr
  rw [newSample_eq_frame c inp f hp] at hr
  unfold newSampleFrame at hr
  split at hr
  · split at hr
    · rcases hI : inp.inferResult with e | es
      · rw [hI] at hr; simp at hr
      · rw [hI] at hr
        exact exportEntities_written_within c f.width f.height
          inp.createOk inp.writeOk es 0 r hr
    · simp at hr
  · simp at hr

/-- C4 amended witness: the zero-width exported crop of the degenerate
detection still lies within the 2×2 frame bounds. -/
theorem c4_clamped_bounds_witness :
    (⟨"frame-0-cat-0.91.png", ⟨1, 0, 0, 2⟩⟩ : ExportRec).rect.x +
        (⟨"frame-0-cat-0.91.png", ⟨1, 0, 0, 2⟩⟩ : ExportRec).rect.w ≤ frame2.width ∧
      (⟨"frame-0-cat-0.91.png", ⟨1, 0, 0, 2⟩⟩ : ExportRec).rect.y +
        (⟨"frame-0-cat-0.91.png", ⟨1, 0, 0, 2⟩⟩ : ExportRec).rect.h ≤ frame2.height :=
  c4_clamped_bounds 0 degenerateInput frame2 rfl
    ⟨"frame-0-cat-0.91.png", ⟨1, 0, 0, 2⟩⟩ (by decide)

/-- C5: on an admitted frame with two detections where persisting the
first fails, `File::create(...).expect("expect a valid file")` aborts the
process: only detection 0 was attempted, nothing was written, and the
second detection's export is never tried. -/
theorem c5_export_failure_aborts :
    (newSample 0 exportFailInput).attempted = [0] ∧
      (newSample 0 exportFailInput).written = [] ∧
      (newSample 0 exportFailInput).panicMsg = some "expect a valid file" := by
  decide

/-- C6: an admitted frame declared 10×10 whose buffer holds only 3 bytes
fails `RgbImage::from_raw` validation, and the callback hits
`.expect("expect a valid image")`, aborting the process instead of
skipping the frame and continuing the stream. -/
theorem c6_invalid_buffer_aborts :
    newSample 0 shortBufferInput =
      ⟨1, none, true, false, [], [], some "expect a valid image"⟩ := by
  decide

/-- C7: the pad-added handler is idempotent — when the sink pad is already
linked it performs no link and raises no error, whatever a link attempt
would have returned — and a failed link attempt is a logged warning, not a
fatal error. -/
theorem c7_pad_added_idempotent :
    padAdded true .success = .noop ∧ padAdded true .failure = .noop ∧
      linksMade (padAdded true .success) = 0 ∧
      linksMade (padAdded true .failure) = 0 ∧
      padAdded false .failure = .warnedFailure ∧
      padAdded false .success = .linkedOk := by
  decide

/-- C8: on an admitted frame (counter `c`, `c % 30 = 0`) with a valid
buffer whose inference returns `es`, with all file operations succeeding,
exactly one file is written per detection, named
`frame-<c>-<label>-<confidence to 2 decimals>.png`. -/
theorem c8_file_name_pattern (c : Nat) (inp : SampleInput) (f : Frame)
    (es : List Entity)
    (hp : inp.pulled = some f)
    (hv : 3 * f.width * f.height ≤ f.data.length)
    (hI : inp.inferResult = .ok es)
    (hg : c % 30 = 0)
    (hc : ∀ i, inp.createOk i = true)
    (hw : ∀ i, inp.writeOk i = true) :
    (newSample c inp).written.map ExportRec.name =
        es.map (fun e =>
          "frame-" ++ toString c ++ "-" ++ e.label ++ "-" ++
            confFormat e.confH ++ ".png") ∧
      (newSample c inp).written.length = es.length := by
  have h1 := exportEntities_all_ok c f.width f.height inp.createOk inp.writeOk
    hc hw es 0
  rw [newSample_eq_frame c inp f hp]
  unfold newSampleFrame
  rw [hI]
  simp [hg, hv, h1.1, fileName]

/-- C8 witness: the degenerate-box frame yields exactly the one file
`frame-0-cat-0.91.png`. -/
theorem c8_file_name_pattern_witness :
    (newSample 0 degenerateInput).written.map ExportRec.name =
        [degenerateEntity].map (fun e =>
          "frame-" ++ toString 0 ++ "-" ++ e.label ++ "-" ++
            confFormat e.confH ++ ".png") ∧
      (newSample 0 degenerateInput).written.length = [degenerateEntity].length :=
  c8_file_name_pattern 0 degenerateInput frame2 [degenerateEntity] rfl
    (by decide) rfl rfl (fun _ => rfl) (fun _ => rfl)

/-- C9: with any arity of positional arguments other than exactly one,
`main` prints a usage message and exits successfully without a pipeline;
with exactly one it proceeds to run the pipeline on that URI. -/
theorem c9_arg_arity (prog : String) (rest : List String) :
    (rest.length ≠ 1 →
      mainArgCheck (prog :: rest) =
        .usageExit ("Usage: " ++ prog ++ " <RTSP URL>")) ∧
      ∀ url, rest = [url] → mainArgCheck (prog :: rest) = .runPipeline url := by
  constructor
  · intro h
    simp [mainArgCheck]
    omega
  · rintro url rfl
    simp [mainArgCheck]

/-- C9 witness: zero positional arguments print usage and exit; one
positional argument runs the pipeline on it. -/
theorem c9_arg_arity_witness :
    mainArgCheck ["stream-yolo"] = .usageExit "Usage: stream-yolo <RTSP URL>" ∧
      mainArgCheck ["stream-yolo", "rtsp://cam"] = .runPipeline "rtsp://cam" :=
  ⟨(c9_arg_arity "stream-yolo" []).1 (by decide),
    (c9_arg_arity "stream-yolo" ["rtsp://cam"]).2 "rtsp://cam" rfl⟩

/-- C10: when `pull_sample` fails, the callback returns
`Err(FlowError::Error)` and does nothing else: the counter is unchanged,
no gate decision, no inference, no export, no abort. -/
theorem c10_pull_failure_no_effect (c : Nat) (inp : SampleInput)
    (hp : inp.pulled = none) :
    newSample c inp = ⟨c, some .error, false, false, [], [], none⟩ := by
  simp [newSample, hp]

/-- C10 witness: a failed pull at counter 5. -/
theorem c10_pull_failure_no_effect_witness :
    newSample 5 noPullInput = ⟨5, some .error, false, false, [], [], none⟩ :=
  c10_pull_failure_no_effect 5 noPullInput rfl

end StreamYolo
